import Mathlib

/-!
Verification of the metric consumption contract of
pkg/otlp/model/translator/consumer.go, the containerd-without-trivy SBOM
stub, and the related invariants stated in the specification.

The Go type MetricDataType is declared as `type MetricDataType int`; we
embed it as Lean Int. Its two declared constants are Gauge = 0 and
Count = 1 (an iota block). MarshalText and UnmarshalText are embedded as
pure functions returning Except; the pointer-receiver update semantics of
UnmarshalText is embedded separately as a state-passing function.
-/

namespace Translator

/-- Embedding of the Go type `type MetricDataType int`: an int-backed
metric type tag. Go int is modelled as Int (no arithmetic is performed on
it, so overflow is irrelevant). -/
abbrev MetricDataType := Int

/-- Gauge is the Datadog Gauge metric type, first constant of the iota
block, hence ordinal 0. -/
def Gauge : MetricDataType := 0

/-- Count is the Datadog Count metric type, second constant of the iota
block, hence ordinal 1. -/
def Count : MetricDataType := 1

/-- The error surface of the codec: both MarshalText and UnmarshalText
fail with a fmt.Errorf value whose message reads
"invalid metric data type ..." with the offending token or ordinal as
detail. We model it structurally. -/
inductive TranslatorError where
  | invalidMetricType (detail : String)
deriving DecidableEq, Repr

/-- Embedding of `func (t *MetricDataType) UnmarshalText(text []byte) error`,
viewed as a decoder from the token to the value. The Go switch compares the
text against "gauge" and then "count" and falls through to an error. -/
def unmarshalText (text : String) : Except TranslatorError MetricDataType :=
  if text = "gauge" then Except.ok Gauge
  else if text = "count" then Except.ok Count
  else Except.error (TranslatorError.invalidMetricType text)

/-- Embedding of the same Go method keeping the pointer-receiver semantics
explicit: the first component is the receiver value after the call, the
second the returned error (none stands for Go nil). On "gauge" and "count"
the receiver is overwritten; in the default branch the method returns an
error without touching the receiver. -/
def unmarshalTextRecv (t : MetricDataType) (text : String) :
    MetricDataType × Option TranslatorError :=
  if text = "gauge" then (Gauge, none)
  else if text = "count" then (Count, none)
  else (t, some (TranslatorError.invalidMetricType text))

/-- Embedding of `func (t MetricDataType) MarshalText() ([]byte, error)`:
the Go switch returns "gauge" for Gauge, "count" for Count, and an error
for every other ordinal. -/
def marshalText (t : MetricDataType) : Except TranslatorError String :=
  if t = Gauge then Except.ok "gauge"
  else if t = Count then Except.ok "count"
  else Except.error (TranslatorError.invalidMetricType (toString t))

/-- Embedding of the Go interface TimeSeriesConsumer: a capability
providing ConsumeTimeSeries. The external opaque types (context.Context,
Dimensions, float64 value) are type parameters; the sink state sigma is
threaded explicitly since the Go method mutates the receiver and returns
nothing. -/
structure TimeSeriesConsumer (Ctx Dims Val : Type) (sigma : Type) where
  consumeTimeSeries : sigma → Ctx → Dims → MetricDataType → Nat → Val → sigma

/-- Embedding of the Go interface SketchConsumer: a capability providing
ConsumeSketch over an opaque quantile.Sketch type. -/
structure SketchConsumer (Ctx Dims Sk : Type) (sigma : Type) where
  consumeSketch : sigma → Ctx → Dims → Nat → Sk → sigma

/-- Embedding of the Go interface APMStatsConsumer: a capability providing
ConsumeAPMStats over an opaque pb.ClientStatsPayload type; no context
argument. -/
structure APMStatsConsumer (Pay : Type) (sigma : Type) where
  consumeAPMStats : sigma → Pay → sigma

/-- Embedding of the Go interface Consumer, which embeds the three
mandatory capability interfaces TimeSeriesConsumer, SketchConsumer and
APMStatsConsumer and adds nothing of its own. -/
structure Consumer (Ctx Dims Val Sk Pay : Type) (sigma : Type) extends
    TimeSeriesConsumer Ctx Dims Val sigma,
    SketchConsumer Ctx Dims Sk sigma,
    APMStatsConsumer Pay sigma

end Translator

namespace Containerd

/-- Embedding of `func (c *collector) startSBOMCollection() error` from
image_sbom_stub.go in the containerd-and-not-trivy build configuration:
the body is `return nil`, so the collector state (opaque here) is
untouched and the returned Go error is nil (none). -/
def startSBOMCollection {Collector : Type} (c : Collector) :
    Collector × Option String := (c, none)

end Containerd

namespace Translator

/-- C1: Encode and Decode of MetricDataType are mutual inverses over the
two valid variants: decoding the encoding of Gauge and of Count returns
the variant, and encoding the decoding of "gauge" and of "count" returns
the token. -/
theorem codec_mutual_inverse :
    (marshalText Gauge).bind unmarshalText = Except.ok Gauge ∧
    (marshalText Count).bind unmarshalText = Except.ok Count ∧
    (unmarshalText "gauge").bind marshalText = Except.ok "gauge" ∧
    (unmarshalText "count").bind marshalText = Except.ok "count" :=
  ⟨rfl, rfl, rfl, rfl⟩

/-- C2: Encode maps Gauge to "gauge" and Count to "count" without error,
and Decode maps "gauge" to Gauge and "count" to Count without error. -/
theorem codec_values :
    marshalText Gauge = Except.ok "gauge" ∧
    marshalText Count = Except.ok "count" ∧
    unmarshalText "gauge" = Except.ok Gauge ∧
    unmarshalText "count" = Except.ok Count :=
  ⟨rfl, rfl, rfl, rfl⟩

/-- C3: Decode fails with an InvalidMetricType error for every token other
than exactly "gauge" and "count"; matching is case-sensitive with no
aliases or normalization. -/
theorem unmarshalText_rejects_unknown (s : String)
    (h1 : s ≠ "gauge") (h2 : s ≠ "count") :
    unmarshalText s = Except.error (TranslatorError.invalidMetricType s) := by
  simp [unmarshalText, h1, h2]

/-- Witness for C3: in particular the upper-case token "GAUGE" is
rejected. -/
theorem unmarshalText_rejects_unknown_witness :
    unmarshalText "GAUGE" =
      Except.error (TranslatorError.invalidMetricType "GAUGE") :=
  unmarshalText_rejects_unknown "GAUGE" (by decide) (by decide)

/-- C4: Encode fails with an InvalidMetricType error for every
MetricDataType ordinal other than Gauge and Count. -/
theorem marshalText_rejects_out_of_range (t : MetricDataType)
    (h1 : t ≠ Gauge) (h2 : t ≠ Count) :
    marshalText t =
      Except.error (TranslatorError.invalidMetricType (toString t)) := by
  simp [marshalText, h1, h2]

/-- Witness for C4: encoding ordinal 99 fails. -/
theorem marshalText_rejects_out_of_range_witness :
    marshalText 99 =
      Except.error (TranslatorError.invalidMetricType (toString (99 : Int))) :=
  marshalText_rejects_out_of_range 99 (by decide) (by decide)

/-- C5: the two codec directions cannot drift: for every string s, Decode
accepts s exactly when s is the Encode image of one of the two valid
variants. -/
theorem codec_no_drift (s : String) :
    (∃ t, unmarshalText s = Except.ok t) ↔
      ∃ v : MetricDataType, (v = Gauge ∨ v = Count) ∧
        marshalText v = Except.ok s := by
  by_cases hg : s = "gauge"
  · subst hg
    exact ⟨fun _ => ⟨Gauge, Or.inl rfl, rfl⟩, fun _ => ⟨Gauge, rfl⟩⟩
  · by_cases hc : s = "count"
    · subst hc
      exact ⟨fun _ => ⟨Count, Or.inr rfl, rfl⟩, fun _ => ⟨Count, rfl⟩⟩
    · constructor
      · rintro ⟨t, ht⟩
        simp [unmarshalText, hg, hc] at ht
      · rintro ⟨v, hv | hv, hm⟩ <;> subst hv
        · rw [show marshalText Gauge = Except.ok "gauge" from rfl] at hm
          exact absurd (Except.ok.inj hm).symm hg
        · rw [show marshalText Count = Except.ok "count" from rfl] at hm
          exact absurd (Except.ok.inj hm).symm hc

/-- Witness for C5: instantiated at "gauge", Decode succeeds because
"gauge" is the Encode image of Gauge. -/
theorem codec_no_drift_witness :
    ∃ t, unmarshalText "gauge" = Except.ok t :=
  (codec_no_drift "gauge").mpr ⟨Gauge, Or.inl rfl, rfl⟩

/-- C6 counterexample: the claim that every value of MetricDataType is one
of the two declared variants fails, because the Go type is int-backed:
the ordinal 99 inhabits MetricDataType and is neither Gauge nor Count. -/
theorem metricDataType_not_closed :
    ¬ ((99 : MetricDataType) = Gauge ∨ (99 : MetricDataType) = Count) := by
  decide

/-- C6 amended: MetricDataType is int-backed, so ordinals other than the
two declared variants inhabit the type; what holds is that exactly the two
declared variants are valid, in the sense that Encode succeeds on a value
precisely when it is Gauge or Count. -/
theorem metricDataType_valid_iff_variant (v : MetricDataType) :
    (∃ s, marshalText v = Except.ok s) ↔ (v = Gauge ∨ v = Count) := by
  by_cases hg : v = Gauge
  · subst hg
    exact ⟨fun _ => Or.inl rfl, fun _ => ⟨"gauge", rfl⟩⟩
  · by_cases hc : v = Count
    · subst hc
      exact ⟨fun _ => Or.inr rfl, fun _ => ⟨"count", rfl⟩⟩
    · constructor
      · rintro ⟨s, hs⟩
        simp [marshalText, hg, hc] at hs
      · rintro (h | h) <;> exact absurd h (by assumption)

/-- Witness for C6 amended: Gauge is valid. -/
theorem metricDataType_valid_iff_variant_witness :
    ∃ s, marshalText Gauge = Except.ok s :=
  (metricDataType_valid_iff_variant Gauge).mpr (Or.inl rfl)

/-- C7: over any choice of the opaque external types and any sink state
type, an implementation of the Consumer aggregate exists exactly when
implementations of all three mandatory capabilities exist: a Consumer
yields all three capabilities, and any missing capability rules out the
aggregate. -/
theorem consumer_iff_all_capabilities
    (Ctx Dims Val Sk Pay sigma : Type) :
    Nonempty (Consumer Ctx Dims Val Sk Pay sigma) ↔
      (Nonempty (TimeSeriesConsumer Ctx Dims Val sigma) ∧
       Nonempty (SketchConsumer Ctx Dims Sk sigma) ∧
       Nonempty (APMStatsConsumer Pay sigma)) := by
  constructor
  · rintro ⟨c⟩
    exact ⟨⟨c.toTimeSeriesConsumer⟩, ⟨c.toSketchConsumer⟩,
      ⟨c.toAPMStatsConsumer⟩⟩
  · rintro ⟨⟨ts⟩, ⟨sk⟩, ⟨st⟩⟩
    exact ⟨⟨ts, sk, st⟩⟩

/-- Witness for C7: instantiated at Unit for every opaque type, a Consumer
exists because the three single-capability implementations exist. -/
theorem consumer_iff_all_capabilities_witness :
    Nonempty (Consumer Unit Unit Unit Unit Unit Unit) :=
  (consumer_iff_all_capabilities Unit Unit Unit Unit Unit Unit).mpr
    ⟨⟨⟨fun s _ _ _ _ _ => s⟩⟩, ⟨⟨fun s _ _ _ _ => s⟩⟩, ⟨⟨fun s _ => s⟩⟩⟩

/-- C8: Decode is atomic on failure: whenever UnmarshalText returns an
error, the receiver MetricDataType is left unchanged. -/
theorem unmarshalText_atomic_on_failure (t : MetricDataType) (text : String)
    (e : TranslatorError) (h : (unmarshalTextRecv t text).2 = some e) :
    (unmarshalTextRecv t text).1 = t := by
  by_cases hg : text = "gauge"
  · simp [unmarshalTextRecv, hg] at h
  · by_cases hc : text = "count"
    · simp [unmarshalTextRecv, hg, hc] at h
    · simp [unmarshalTextRecv, hg, hc]

/-- Witness for C8: decoding "GAUGE" into a receiver holding Count fails
and leaves the receiver equal to Count. -/
theorem unmarshalText_atomic_on_failure_witness :
    (unmarshalTextRecv Count "GAUGE").2 =
        some (TranslatorError.invalidMetricType "GAUGE") ∧
      (unmarshalTextRecv Count "GAUGE").1 = Count :=
  ⟨rfl, unmarshalText_atomic_on_failure Count "GAUGE"
    (TranslatorError.invalidMetricType "GAUGE") rfl⟩

/-- C9: the zero value of the int-backed MetricDataType is Gauge, with
Gauge at ordinal 0 and Count at ordinal 1, so a default-initialized
MetricDataType encodes to "gauge" without error. -/
theorem zero_value_is_gauge :
    Gauge = (0 : Int) ∧ Count = (1 : Int) ∧
      marshalText (0 : MetricDataType) = Except.ok "gauge" :=
  ⟨rfl, rfl, rfl⟩

end Translator

namespace Containerd

/-- C10: in the containerd-without-trivy build configuration,
startSBOMCollection always returns nil and leaves the collector state
unchanged. -/
theorem startSBOMCollection_always_nil {Collector : Type} (c : Collector) :
    startSBOMCollection c = (c, none) := rfl

/-- Witness for C10: applied to a concrete collector state. -/
theorem startSBOMCollection_always_nil_witness :
    startSBOMCollection () = ((), none) :=
  startSBOMCollection_always_nil ()

end Containerd
